import Mathlib

/-!
Shallow embedding of `src/main.py` (single-endpoint FastAPI image converter).

The Python code is translated into executable Lean definitions:

* `sanitize_filename`   — lines 46-52 of `src/main.py`
* `supported_formats`, `resolveFormat` — lines 81-90
* `verify_recaptcha`    — lines 37-43 (httpx call modelled by an
  `UpstreamResp` environment value: transport failure, an HTTP status and
  an optionally-parseable JSON body)
* `convert_image`       — lines 55-125, split into the verification part
  (lines 63-79) and `conversionPhase` (lines 81-125, the part after the
  reCAPTCHA checks)

Python strings are Lean `String`s; Python `dict`s coming from JSON are the
`Json` inductive below; Python floats are modelled by `ℚ` (only comparison
logic matters here, no rounding); exceptions are explicit constructors of
`HandlerOutcome` / `Except`.
-/

namespace ImageConv

/-- JSON values, as produced by `resp.json()` in the Python code. -/
inductive Json where
  | null : Json
  | bool (b : Bool) : Json
  | num (q : ℚ) : Json
  | str (s : String) : Json
  | arr (l : List Json) : Json
  | obj (l : List (String × Json)) : Json

/-- Python truthiness (`bool(x)`) of a JSON-derived value:
`None`, `False`, `0`, `""`, `[]`, `{}` are falsy, everything else truthy. -/
def Json.truthy : Json → Bool
  | .null => false
  | .bool b => b
  | .num q => q != 0
  | .str s => s != ""
  | .arr [] => false
  | .arr (_ :: _) => true
  | .obj [] => false
  | .obj (_ :: _) => true

/-- `d.get(k)` on a JSON object rendered as a Python dict:
first binding for the key, if any. -/
def lookupJson (kvs : List (String × Json)) (k : String) : Option Json :=
  kvs.lookup k

/- ------------------------------------------------------------------ -/
/- Python string primitives used by `main.py`                          -/
/- ------------------------------------------------------------------ -/

/-- Characters Python `str.strip()` removes (ASCII whitespace). -/
def isPySpace (c : Char) : Bool :=
  c = ' ' || c = '\t' || c = '\n' || c = '\r' || c = '\x0b' || c = '\x0c'

/-- List form of Python `str.strip()`: drop leading and trailing whitespace. -/
def pyStripList (l : List Char) : List Char :=
  ((l.dropWhile isPySpace).reverse.dropWhile isPySpace).reverse

/-- Python `str.strip()` (no argument): removes whitespace from BOTH ends. -/
def pyStrip (s : String) : String :=
  String.mk (pyStripList s.toList)

/-- Python `str.lower()`, restricted to ASCII case mapping
(no supported-format outcome depends on non-ASCII case folding). -/
def pyLower (s : String) : String :=
  String.mk (s.toList.map Char.toLower)

/-- Scan a list for the first `.`; `some rest` = everything after it,
`none` = no dot present.  Helper for Python `rsplit(".", 1)`. -/
def dropThroughDot : List Char → Option (List Char)
  | [] => none
  | c :: cs => if c = '.' then some cs else dropThroughDot cs

/-- `name.rsplit(".", 1)[0]` on a char list: everything strictly before the
last `.`; the whole list when there is no dot. -/
def dropAfterLastDot (l : List Char) : List Char :=
  match dropThroughDot l.reverse with
  | some r => r.reverse
  | none => l

/-- Python `name.rsplit(".", 1)[0]`. -/
def rsplitDot1 (s : String) : String :=
  String.mk (dropAfterLastDot s.toList)

/-- The character class kept by `re.sub(r'[^A-Za-z0-9 _\-]', "", name)`:
ASCII letters, digits, space, underscore, hyphen. -/
def allowedChar (c : Char) : Bool :=
  ('A' ≤ c && c ≤ 'Z') || ('a' ≤ c && c ≤ 'z') || ('0' ≤ c && c ≤ '9') ||
    c = ' ' || c = '_' || c = '-'

/-- `sanitize_filename` (src/main.py lines 46-52):
```python
def sanitize_filename(name: str, ext: str) -> str:
    if "." in name:
        name = name.rsplit(".", 1)[0]
    clean = re.sub(r'[^A-Za-z0-9 _\-]', "", name).strip()
    if not clean:
        clean = "converted"
    return f"{clean}.{ext}"
``` -/
def sanitize_filename (name ext : String) : String :=
  let name1 := if name.toList.contains '.' then rsplitDot1 name else name
  let clean := String.mk (pyStripList (name1.toList.filter allowedChar))
  let clean2 := if clean = "" then "converted" else clean
  clean2 ++ "." ++ ext

/- ------------------------------------------------------------------ -/
/- Format registry (src/main.py lines 81-90)                           -/
/- ------------------------------------------------------------------ -/

/-- The `supported_formats` dict (src/main.py lines 81-87). -/
def supported_formats : List (String × String) :=
  [("webp", "WEBP"), ("jpeg", "JPEG"), ("png", "PNG"), ("ico", "ICO"),
   ("gif", "GIF")]

/-- Structured failure modes of the request handler: each constructor is one
`HTTPException` raise site of `src/main.py`, carrying the data interpolated
into the `detail` string there. -/
inductive ConvError where
  /-- line 66: `HTTPException(502, "Gagal memverifikasi reCAPTCHA (network).")` -/
  | verificationUnavailable : ConvError
  /-- line 70: `HTTPException(400, f"reCAPTCHA validation failed. {codes}")` -/
  | verificationRejected (codes : Json) : ConvError
  /-- line 79: `HTTPException(400, f"reCAPTCHA score too low ({score}).")` -/
  | scoreTooLow (score : ℚ) : ConvError
  /-- line 90: `HTTPException(400, f"Target format '{target_format}' is not supported.")` -/
  | unsupportedFormat (target : String) : ConvError
  /-- line 125: `HTTPException(500, f"An error occurred during conversion: {str(e)}")` -/
  | internal (cause : String) : ConvError

/-- HTTP status code attached to each `HTTPException` raise site. -/
def ConvError.status : ConvError → ℕ
  | .verificationUnavailable => 502
  | .verificationRejected _ => 400
  | .scoreTooLow _ => 400
  | .unsupportedFormat _ => 400
  | .internal _ => 500

/-- An ASCII single-quote character, as used inside the line-90 detail. -/
def squote : String := String.mk [Char.ofNat 39]

/-- The `detail` string of the line-90 `HTTPException`:
`f"Target format '{target_format}' is not supported."` -/
def unsupportedFormatDetail (target_format : String) : String :=
  "Target format " ++ squote ++ target_format ++ squote ++ " is not supported."

/-- Lines 88-90 of `src/main.py`: lowercase the submitted key, look it up in
`supported_formats`, and fail with the line-90 `HTTPException` otherwise.
On success returns `(format_key, pil_format)`. -/
def resolveFormat (target_format : String) : Except ConvError (String × String) :=
  let format_key := pyLower target_format
  match supported_formats.lookup format_key with
  | some pil => .ok (format_key, pil)
  | none => .error (.unsupportedFormat target_format)

/- ------------------------------------------------------------------ -/
/- Python float() on JSON-derived values                               -/
/- ------------------------------------------------------------------ -/

/-- Decimal value of a digit list (most significant first). -/
def digitsToNat (l : List Char) : ℕ :=
  l.foldl (fun a c => a * 10 + (c.toNat - 48)) 0

/-- Every character is an ASCII digit. -/
def allDigits (l : List Char) : Bool :=
  l.all fun c => '0' ≤ c && c ≤ '9'

/-- Strip one optional leading sign, returning the sign as `±1`. -/
def splitSign : List Char → ℤ × List Char
  | '+' :: cs => (1, cs)
  | '-' :: cs => (-1, cs)
  | cs => (1, cs)

/-- Split at the first `.` (integer part, optional fractional tail). -/
def splitAtDot : List Char → List Char × Option (List Char)
  | [] => ([], none)
  | c :: cs =>
    if c = '.' then ([], some cs)
    else
      let p := splitAtDot cs
      (c :: p.1, p.2)

/-- Split at the first `e`/`E` (mantissa, optional exponent tail). -/
def splitAtExp : List Char → List Char × Option (List Char)
  | [] => ([], none)
  | c :: cs =>
    if c = 'e' || c = 'E' then ([], some cs)
    else
      let p := splitAtExp cs
      (c :: p.1, p.2)

/-- Python `float(s)` on a string, for finite decimal literals with optional
sign, fraction, exponent and surrounding whitespace; `none` models a
`ValueError`.  (The exotic accepted spellings — `inf`, `nan`, digit
underscores — are outside the modelled subset; no claim here depends on
them.) -/
def parsePyFloatString (s : String) : Option ℚ :=
  let l := ((s.toList.dropWhile isPySpace).reverse.dropWhile isPySpace).reverse
  let me := splitAtExp l
  let sm := splitSign me.1
  let ifr := splitAtDot sm.2
  let ip := ifr.1
  let fp := (ifr.2).getD []
  if allDigits ip && allDigits fp && !(ip.isEmpty && fp.isEmpty) then
    let mval : ℚ := (sm.1 : ℚ) * (digitsToNat (ip ++ fp) : ℚ) / (10 : ℚ) ^ fp.length
    match me.2 with
    | none => some mval
    | some e =>
      let se := splitSign e
      if allDigits se.2 && !se.2.isEmpty then
        some (mval * (10 : ℚ) ^ (se.1 * (digitsToNat se.2 : ℤ)))
      else none
  else none

/-- Python `float(x)` applied to a JSON-derived value; `none` models the
conversion raising an exception. -/
def pyFloat? : Json → Option ℚ
  | .num q => some q
  | .bool b => some (if b then 1 else 0)
  | .str s => parsePyFloatString s
  | _ => none

/-- Default of `RECAPTCHA_V3_THRESHOLD` (src/main.py line 17):
`float(os.getenv("RECAPTCHA_V3_THRESHOLD", "0.3"))`. -/
def defaultRecaptchaThreshold : ℚ := 3 / 10

/- ------------------------------------------------------------------ -/
/- Verification client (src/main.py lines 37-43)                       -/
/- ------------------------------------------------------------------ -/

/-- Outcome of the outbound `client.post(...)` inside `verify_recaptcha`, as
environment data: either the transport layer raised an `httpx` error
(timeout, connection failure), or a response arrived carrying a status code
and a body that either parses as JSON (`some j`) or does not (`none`). -/
inductive UpstreamResp where
  | transportFailure : UpstreamResp
  | resp (status : ℕ) (body : Option Json) : UpstreamResp

/-- How the awaited `verify_recaptcha(token)` call terminates, as seen by
line 64 of `src/main.py`. -/
inductive VerifyResult where
  /-- An `httpx.HTTPError` propagates: transport failure from `post`, or
  `raise_for_status()` raising `httpx.HTTPStatusError` on a non-2xx code. -/
  | httpErr : VerifyResult
  /-- `resp.json()` raises `json.JSONDecodeError` — which is NOT a subclass
  of `httpx.HTTPError`. -/
  | jsonErr : VerifyResult
  /-- The parsed JSON body is returned. -/
  | ok (body : Json) : VerifyResult

/-- `verify_recaptcha` (src/main.py lines 37-43): posts the secret and the
token, raises for a non-2xx status (`resp.raise_for_status()`, where httpx
treats exactly 200-299 as success), then parses the body with
`resp.json()`. -/
def verify_recaptcha (_token : String) (u : UpstreamResp) : VerifyResult :=
  match u with
  | .transportFailure => .httpErr
  | .resp status body =>
    if 200 ≤ status ∧ status < 300 then
      match body with
      | some j => .ok j
      | none => .jsonErr
    else .httpErr

/-- Lines 72-79 of `src/main.py`: `some s` when the score check raises the
line-79 `HTTPException` (with `s` the float-converted score), `none` when
execution falls through to the format check.  A missing `"score"` key and a
JSON `null` both make `recaptcha_result.get("score")` return Python `None`;
a value on which `float` raises is replaced by `None` by the `except`
branch, so the comparison is skipped. -/
def scoreViolation (kvs : List (String × Json)) (threshold : ℚ) : Option ℚ :=
  match lookupJson kvs "score" with
  | none => none
  | some .null => none
  | some v =>
    match pyFloat? v with
    | none => none
    | some q => if q < threshold then some q else none

/- ------------------------------------------------------------------ -/
/- Conversion pipeline (src/main.py lines 92-125)                      -/
/- ------------------------------------------------------------------ -/

/-- One invocation of `img.save(...)` as the codec collaborator sees it: the
color mode of the image at save time (after any line-99/100 coercion), the
PIL format name, and the optional `sizes` / `quality` keyword arguments. -/
structure SaveCall where
  mode : String
  format : String
  sizes : Option (List (ℕ × ℕ))
  quality : Option ℕ

/-- Lines 99-108 of `src/main.py`: the alpha-mode coercion and the choice of
`img.save` arguments:
```python
if img.mode in ("RGBA", "LA") and format_key in ("jpeg", "jpg"):
    img = img.convert("RGB")
if format_key == "ico":
    img.save(output_buffer, format=pil_format, sizes=[(16,16), (32,32), (48,48), (64,64)])
else:
    if pil_format == "JPEG":
        img.save(output_buffer, format=pil_format, quality=85)
    else:
        img.save(output_buffer, format=pil_format)
``` -/
def saveInvocation (mode format_key pil_format : String) : SaveCall :=
  let mode2 :=
    if (mode = "RGBA" || mode = "LA") && (format_key = "jpeg" || format_key = "jpg")
    then "RGB" else mode
  if format_key = "ico" then
    ⟨mode2, pil_format, some [(16, 16), (32, 32), (48, 48), (64, 64)], none⟩
  else if pil_format = "JPEG" then
    ⟨mode2, pil_format, none, some 85⟩
  else
    ⟨mode2, pil_format, none, none⟩

/-- Python `x or default` for an optional string: both `None` and `""` are
falsy (line 115: `file.filename or "converted"`). -/
def pyOrStr (x : Option String) (dflt : String) : String :=
  match x with
  | none => dflt
  | some s => if s = "" then dflt else s

/-- Environment of one request: what the network and the codec collaborator
do when called.  `decodeResult` models `file.read()` + `Image.open` (either
an exception message or the decoded image's mode); `saveResult` models
`img.save` on a given invocation. -/
structure Env where
  upstream : UpstreamResp
  decodeResult : Except String String
  saveResult : SaveCall → Except String Unit

/-- Result of one execution of the `/convert/` handler: a 200 response
(media type and attachment filename), a raised `HTTPException` (mapped by
FastAPI to a well-formed JSON error response), or an exception escaping the
handler uncaught. -/
inductive HandlerOutcome where
  | success (mediaType : String) (filename : String) : HandlerOutcome
  | error (e : ConvError) : HandlerOutcome
  | escaped (exnName : String) : HandlerOutcome

/-- Lines 81-125 of `src/main.py`: everything after the reCAPTCHA checks —
format resolution, then the `try` block (decode, mode coercion, save,
filename computation, response), whose `except Exception` clause converts
any exception raised inside it into the line-125 `HTTPException(500, ...)`. -/
def conversionPhase (file_filename : Option String) (target_format : String)
    (output_filename : Option String) (env : Env) : HandlerOutcome :=
  match resolveFormat target_format with
  | .error e => .error e
  | .ok (format_key, pil_format) =>
    match env.decodeResult with
    | .error m => .error (.internal m)
    | .ok mode =>
      match env.saveResult (saveInvocation mode format_key pil_format) with
      | .error m => .error (.internal m)
      | .ok _ =>
        let new_filename :=
          match output_filename with
          | some ofn =>
            if pyStrip ofn ≠ "" then sanitize_filename ofn format_key
            else sanitize_filename (rsplitDot1 (pyOrStr file_filename "converted")) format_key
          | none => sanitize_filename (rsplitDot1 (pyOrStr file_filename "converted")) format_key
        .success ("image/" ++ format_key) new_filename

/-- The `convert_image` handler (src/main.py lines 55-125).  The verification
part (lines 63-79) runs OUTSIDE the `try` of lines 92-125: only
`httpx.HTTPError` is caught around the `verify_recaptcha` call, so a
`json.JSONDecodeError` from `resp.json()` (2xx, unparseable body) and an
`AttributeError` from `.get` (2xx, valid JSON that is not an object) escape
the handler uncaught. -/
def convert_image (file_filename : Option String) (target_format : String)
    (output_filename : Option String) (g_recaptcha_response : String)
    (threshold : ℚ) (env : Env) : HandlerOutcome :=
  match verify_recaptcha g_recaptcha_response env.upstream with
  | .httpErr => .error .verificationUnavailable
  | .jsonErr => .escaped "JSONDecodeError"
  | .ok (.obj kvs) =>
    if ((lookupJson kvs "success").getD (.bool false)).truthy then
      match scoreViolation kvs threshold with
      | some s => .error (.scoreTooLow s)
      | none => conversionPhase file_filename target_format output_filename env
    else
      .error (.verificationRejected ((lookupJson kvs "error-codes").getD (.arr [])))
  | .ok _ => .escaped "AttributeError"

/-- Outcomes that are verification failures (the three §4.3 error kinds). -/
def isVerificationError : HandlerOutcome → Bool
  | .error .verificationUnavailable => true
  | .error (.verificationRejected _) => true
  | .error (.scoreTooLow _) => true
  | _ => false

/- ------------------------------------------------------------------ -/
/- Claim-side (spec-worded) sanitizer, for the refinement claims C3/C4 -/
/- ------------------------------------------------------------------ -/

/-- Claim-side character class: alphanumeric, space, underscore, hyphen. -/
def specAllowedChar (c : Char) : Bool :=
  c.isAlphanum || c = ' ' || c = '_' || c = '-'

/-- Claim-side extension strip: drop the last `.` and the text after it;
identity when no dot occurs.  Written by forward recursion (keep a character
as long as a dot still occurs later; stop at the last dot). -/
def stripExtSpec : List Char → List Char
  | [] => []
  | c :: cs =>
    if '.' ∈ cs then c :: stripExtSpec cs
    else if c = '.' then []
    else c :: stripExtSpec cs

/-- Trim whitespace from both ends of a char list. -/
def trimBothSpec (l : List Char) : List Char :=
  ((l.dropWhile Char.isWhitespace).reverse.dropWhile Char.isWhitespace).reverse

/-- The sanitizer as claim C3 — amended to trim BOTH ends — describes it:
drop the text after the last `.`, remove every character that is not
alphanumeric, space, underscore or hyphen, trim surrounding whitespace,
substitute `"converted"` if empty, append `"." ++ ext`. -/
def sanitizeClaim (rawName ext : String) : String :=
  let base := stripExtSpec rawName.toList
  let cleaned := String.mk (trimBothSpec (base.filter specAllowedChar))
  (if cleaned = "" then "converted" else cleaned) ++ "." ++ ext

/-- The sanitizer exactly as claim C3 states it, trimming TRAILING
whitespace only. -/
def sanitizeTrailingOnly (rawName ext : String) : String :=
  let base := stripExtSpec rawName.toList
  let cleaned :=
    String.mk (((base.filter specAllowedChar).reverse.dropWhile Char.isWhitespace).reverse)
  (if cleaned = "" then "converted" else cleaned) ++ "." ++ ext

/-- The output base name as claim C4 describes it for an absent or blank
user-supplied name: the upload filename (fallback `"converted"` when
absent), one extension stripped, then cleaned as by the sanitizer — which
appends `"." ++ ext` itself. -/
def claimC4Filename (upload_filename : Option String) (ext : String) : String :=
  let raw := (upload_filename.getD "converted")
  sanitizeClaim (String.mk (stripExtSpec raw.toList)) ext

/- ------------------------------------------------------------------ -/
/- Helper lemmas                                                       -/
/- ------------------------------------------------------------------ -/

lemma dropThroughDot_append (xs ys : List Char) :
    dropThroughDot (xs ++ ys) =
      match dropThroughDot xs with
      | some r => some (r ++ ys)
      | none => dropThroughDot ys := by
  induction xs with
  | nil => simp [dropThroughDot]
  | cons c cs ih =>
    by_cases hc : c = '.'
    · simp [dropThroughDot, hc]
    · simp [dropThroughDot, hc, ih]

lemma dropThroughDot_eq_none (xs : List Char) :
    dropThroughDot xs = none ↔ '.' ∉ xs := by
  induction xs with
  | nil => simp [dropThroughDot]
  | cons c cs ih =>
    by_cases hc : c = '.'
    · subst hc; simp [dropThroughDot]
    · rw [dropThroughDot, if_neg hc, ih]
      simp only [List.mem_cons, not_or]
      constructor
      · intro h
        exact ⟨fun he => hc he.symm, h⟩
      · intro h
        exact h.2

lemma dropThroughDot_of_not_mem (xs : List Char) (h : '.' ∉ xs) :
    dropThroughDot xs = none :=
  (dropThroughDot_eq_none xs).mpr h

/-- The claim-side extension strip agrees with the Python
`rsplit(".", 1)[0]` translation. -/
lemma stripExtSpec_eq_dropAfterLastDot (l : List Char) :
    stripExtSpec l = dropAfterLastDot l := by
  induction l with
  | nil => rfl
  | cons c cs ih =>
    by_cases hmem : '.' ∈ cs
    · have hrev : dropThroughDot cs.reverse ≠ none := by
        rw [Ne, dropThroughDot_eq_none, List.mem_reverse]
        exact fun h => h hmem
      rcases hr : dropThroughDot cs.reverse with _ | r
      · exact absurd hr hrev
      · have hcs : dropAfterLastDot cs = r.reverse := by
          unfold dropAfterLastDot
          rw [hr]
        have hccs : dropAfterLastDot (c :: cs) = c :: r.reverse := by
          unfold dropAfterLastDot
          have : (c :: cs).reverse = cs.reverse ++ [c] := by simp
          rw [this, dropThroughDot_append, hr]
          simp
        rw [hccs]
        unfold stripExtSpec
        rw [if_pos hmem, ih, hcs]
    · by_cases hc : c = '.'
      · subst hc
        have hccs : dropAfterLastDot ('.' :: cs) = [] := by
          unfold dropAfterLastDot
          have : ('.' :: cs).reverse = cs.reverse ++ ['.'] := by simp
          rw [this, dropThroughDot_append,
            dropThroughDot_of_not_mem cs.reverse (by simpa using hmem)]
          simp [dropThroughDot]
        rw [hccs]
        unfold stripExtSpec
        rw [if_neg hmem]
        simp
      · have hnm : '.' ∉ (c :: cs).reverse := by
          rw [List.mem_reverse, List.mem_cons, not_or]
          exact ⟨fun he => hc he.symm, hmem⟩
        have hccs : dropAfterLastDot (c :: cs) = c :: cs := by
          unfold dropAfterLastDot
          rw [dropThroughDot_of_not_mem (c :: cs).reverse hnm]
        have hcs : dropAfterLastDot cs = cs := by
          unfold dropAfterLastDot
          rw [dropThroughDot_of_not_mem cs.reverse (by simpa using hmem)]
        rw [hccs]
        unfold stripExtSpec
        rw [if_neg hmem, if_neg hc, ih, hcs]

/-- When no dot occurs, both extension strips are the identity. -/
lemma dropAfterLastDot_of_not_mem (l : List Char) (h : '.' ∉ l) :
    dropAfterLastDot l = l := by
  unfold dropAfterLastDot
  rw [dropThroughDot_of_not_mem l.reverse (by simpa using h)]

/-- The regex character class and the claim-side one agree. -/
lemma allowedChar_eq_specAllowedChar : allowedChar = specAllowedChar := by
  funext c
  simp [allowedChar, specAllowedChar, Char.isAlphanum, Char.isAlpha,
    Char.isDigit, Char.isUpper, Char.isLower, Char.le_def, Bool.or_assoc]

lemma not_pySpace_of_allowed (c : Char) (h : allowedChar c = true)
    (hs : c ≠ ' ') : isPySpace c = false := by
  cases hps : isPySpace c with
  | false => rfl
  | true =>
    exfalso
    have ht : c = ' ' ∨ c = '\t' ∨ c = '\n' ∨ c = '\r' ∨ c = '\x0b' ∨ c = '\x0c' := by
      simpa [isPySpace, or_assoc] using hps
    rcases ht with rfl | rfl | rfl | rfl | rfl | rfl
    · exact hs rfl
    all_goals exact absurd h (by decide)

lemma not_whitespace_of_allowed (c : Char) (h : allowedChar c = true)
    (hs : c ≠ ' ') : c.isWhitespace = false := by
  cases hps : c.isWhitespace with
  | false => rfl
  | true =>
    exfalso
    have ht : c = ' ' ∨ c = '\t' ∨ c = '\r' ∨ c = '\n' := by
      simpa [Char.isWhitespace, or_assoc] using hps
    rcases ht with rfl | rfl | rfl | rfl
    · exact hs rfl
    all_goals exact absurd h (by decide)

/-- On characters kept by the regex, Python `strip()` and claim-side
whitespace trimming test the same thing. -/
lemma pySpace_eq_whitespace_of_allowed (c : Char) (h : allowedChar c = true) :
    isPySpace c = c.isWhitespace := by
  by_cases hs : c = ' '
  · subst hs; decide
  · rw [not_pySpace_of_allowed c h hs, not_whitespace_of_allowed c h hs]

lemma dropWhile_congr_mem {p q : Char → Bool} :
    ∀ (l : List Char), (∀ c ∈ l, p c = q c) → l.dropWhile p = l.dropWhile q
  | [], _ => rfl
  | c :: cs, h => by
    have hc := h c (List.mem_cons_self c cs)
    by_cases hp : p c = true
    · rw [List.dropWhile_cons_of_pos hp, List.dropWhile_cons_of_pos (hc ▸ hp),
        dropWhile_congr_mem cs (fun d hd => h d (List.mem_cons_of_mem c hd))]
    · have hp2 : ¬ q c = true := fun hq => hp (hc ▸ hq)
      rw [List.dropWhile_cons_of_neg hp, List.dropWhile_cons_of_neg hp2]

lemma mem_of_mem_dropWhile {p : Char → Bool} (l : List Char) (c : Char)
    (h : c ∈ l.dropWhile p) : c ∈ l := by
  induction l with
  | nil => simp [List.dropWhile] at h
  | cons d ds ih =>
    by_cases hd : p d = true
    · rw [List.dropWhile_cons_of_pos hd] at h
      exact List.mem_cons_of_mem d (ih h)
    · rw [List.dropWhile_cons_of_neg hd] at h
      exact h

/-- On lists of regex-kept characters, Python `strip()` and claim-side
both-ends trimming coincide. -/
lemma pyStripList_eq_trimBoth (l : List Char)
    (h : ∀ c ∈ l, allowedChar c = true) :
    pyStripList l = trimBothSpec l := by
  unfold pyStripList trimBothSpec
  rw [dropWhile_congr_mem l (fun c hc => pySpace_eq_whitespace_of_allowed c (h c hc))]
  rw [dropWhile_congr_mem ((l.dropWhile Char.isWhitespace).reverse)
    (fun c hc => pySpace_eq_whitespace_of_allowed c
      (h c (mem_of_mem_dropWhile l c (List.mem_reverse.mp hc))))]

/-- The Python sanitizer equals the claim-side (both-ends-trim) sanitizer. -/
lemma sanitize_filename_eq_sanitizeClaim (name ext : String) :
    sanitize_filename name ext = sanitizeClaim name ext := by
  unfold sanitize_filename sanitizeClaim
  dsimp only
  have hbase :
      (if name.toList.contains '.' then rsplitDot1 name else name).toList =
        stripExtSpec name.toList := by
    rw [stripExtSpec_eq_dropAfterLastDot]
    by_cases hmem : name.toList.contains '.'
    · rw [if_pos hmem]
      rfl
    · rw [if_neg hmem, dropAfterLastDot_of_not_mem]
      simpa using hmem
  rw [hbase, allowedChar_eq_specAllowedChar,
    pyStripList_eq_trimBoth (List.filter specAllowedChar (stripExtSpec name.toList))
      (fun c hc => by
        rw [allowedChar_eq_specAllowedChar]
        exact (List.mem_filter.mp hc).2)]

/-- An error coming out of `resolveFormat` is the line-90 unsupported-format
one, for the submitted (pre-lowercasing) value. -/
lemma resolveFormat_error_shape (t : String) (e : ConvError)
    (h : resolveFormat t = .error e) : e = .unsupportedFormat t := by
  unfold resolveFormat at h
  dsimp only at h
  rcases hl : supported_formats.lookup (pyLower t) with _ | pil <;> rw [hl] at h
  · cases h
    rfl
  · cases h

/-- A success of `resolveFormat` returns the lowercased key and its table
entry. -/
lemma resolveFormat_ok_shape (t fk pil : String)
    (h : resolveFormat t = .ok (fk, pil)) :
    fk = pyLower t ∧ supported_formats.lookup (pyLower t) = some pil := by
  unfold resolveFormat at h
  dsimp only at h
  rcases hl : supported_formats.lookup (pyLower t) with _ | p <;> rw [hl] at h
  · cases h
  · cases h
    exact ⟨rfl, rfl⟩

/-- Every run of the post-verification phase ends in a 200 response, the
line-90 unsupported-format 400, or a line-125 internal 500. -/
lemma conversionPhase_shape (f : Option String) (t : String)
    (o : Option String) (env : Env) :
    (∃ mt fn, conversionPhase f t o env = .success mt fn) ∨
    conversionPhase f t o env = .error (.unsupportedFormat t) ∨
    (∃ m, conversionPhase f t o env = .error (.internal m)) := by
  unfold conversionPhase
  rcases hr : resolveFormat t with e | p
  · right
    left
    dsimp only
    rw [resolveFormat_error_shape t e hr]
  · obtain ⟨fk, pil⟩ := p
    dsimp only
    rcases hd : env.decodeResult with m | mode
    · right; right
      exact ⟨m, rfl⟩
    · dsimp only
      rcases hs : env.saveResult (saveInvocation mode fk pil) with m | u
      · right; right
        exact ⟨m, rfl⟩
      · dsimp only
        left
        exact ⟨_, _, rfl⟩

/-- The conversion phase never yields a verification-kind failure. -/
lemma conversionPhase_no_verifError (f : Option String) (t : String)
    (o : Option String) (env : Env) :
    isVerificationError (conversionPhase f t o env) = false := by
  rcases conversionPhase_shape f t o env with ⟨mt, fn, h⟩ | h | ⟨m, h⟩ <;>
    rw [h] <;> rfl

/-- The conversion phase never lets an exception escape: the `except`
clauses of lines 122-125 cover the whole `try` block. -/
lemma conversionPhase_ne_escaped (f : Option String) (t : String)
    (o : Option String) (env : Env) (n : String) :
    conversionPhase f t o env ≠ .escaped n := by
  rcases conversionPhase_shape f t o env with ⟨mt, fn, h⟩ | h | ⟨m, h⟩ <;>
    rw [h] <;> exact fun hc => HandlerOutcome.noConfusion hc

/-- With a 2xx, JSON-object verification response whose `success` entry is
truthy, the handler reduces to the score check followed by the conversion
phase. -/
lemma convert_image_after_success (file_fn : Option String) (tf : String)
    (out_fn : Option String) (tok : String) (th : ℚ) (env : Env)
    (kvs : List (String × Json)) (st : ℕ)
    (hst : 200 ≤ st ∧ st < 300)
    (hup : env.upstream = .resp st (some (.obj kvs)))
    (hsucc : ((lookupJson kvs "success").getD (.bool false)).truthy = true) :
    convert_image file_fn tf out_fn tok th env =
      match scoreViolation kvs th with
      | some s => .error (.scoreTooLow s)
      | none => conversionPhase file_fn tf out_fn env := by
  unfold convert_image verify_recaptcha
  rw [hup]
  dsimp only
  rw [if_pos hst]
  dsimp only
  rw [if_pos hsucc]

/- ------------------------------------------------------------------ -/
/- Claim theorems                                                      -/
/- ------------------------------------------------------------------ -/

/-- C1: a target-format key whose lowercase form is outside
{webp, jpeg, png, ico, gif} makes format resolution fail with the 400
unsupported-format error whose detail names the rejected value; a key whose
lowercase form is in the set resolves successfully. -/
theorem C1_format_resolution (key : String) :
    (pyLower key ∈ ["webp", "jpeg", "png", "ico", "gif"] →
      ∃ pil, resolveFormat key = .ok (pyLower key, pil)) ∧
    (pyLower key ∉ ["webp", "jpeg", "png", "ico", "gif"] →
      resolveFormat key = .error (.unsupportedFormat key) ∧
      (ConvError.unsupportedFormat key).status = 400 ∧
      ∃ pre post, unsupportedFormatDetail key = pre ++ key ++ post) := by
  constructor
  · intro h
    simp only [List.mem_cons, List.not_mem_nil, or_false] at h
    unfold resolveFormat
    dsimp only
    rcases h with h | h | h | h | h <;> rw [h] <;> exact ⟨_, rfl⟩
  · intro h
    simp only [List.mem_cons, List.not_mem_nil, or_false, not_or] at h
    obtain ⟨h1, h2, h3, h4, h5⟩ := h
    have hl : supported_formats.lookup (pyLower key) = none := by
      have e1 : (pyLower key == "webp") = false := beq_eq_false_iff_ne.mpr h1
      have e2 : (pyLower key == "jpeg") = false := beq_eq_false_iff_ne.mpr h2
      have e3 : (pyLower key == "png") = false := beq_eq_false_iff_ne.mpr h3
      have e4 : (pyLower key == "ico") = false := beq_eq_false_iff_ne.mpr h4
      have e5 : (pyLower key == "gif") = false := beq_eq_false_iff_ne.mpr h5
      simp [supported_formats, List.lookup, e1, e2, e3, e4, e5]
    refine ⟨?_, rfl, "Target format " ++ squote, squote ++ " is not supported.", ?_⟩
    · unfold resolveFormat
      dsimp only
      rw [hl]
    · unfold unsupportedFormatDetail
      simp [String.append_assoc]

/-- C1 witness: `"WebP"` resolves; `"jpg"` is rejected with a 400 whose
detail contains the submitted value. -/
theorem C1_witness :
    (∃ pil, resolveFormat "WebP" = .ok ("webp", pil)) ∧
    resolveFormat "jpg" = .error (.unsupportedFormat "jpg") ∧
    (ConvError.unsupportedFormat "jpg").status = 400 := by
  refine ⟨?_, ?_, ?_⟩
  · exact (C1_format_resolution "WebP").1 (by decide)
  · exact ((C1_format_resolution "jpg").2 (by decide)).1
  · exact ((C1_format_resolution "jpg").2 (by decide)).2.1

/-- C2 counterexample: the claim says the encode step applies quality 85 to
`webp`; in the code only the `pil_format == "JPEG"` branch passes a quality,
and `webp` resolves to a save call with no `quality` argument at all. -/
theorem C2_counterexample :
    resolveFormat "webp" = .ok ("webp", "WEBP") ∧
    ¬ (saveInvocation "RGB" "webp" "WEBP").quality = some 85 ∧
    (saveInvocation "RGB" "webp" "WEBP").quality = none := by
  refine ⟨rfl, ?_, rfl⟩
  intro h
  simp [saveInvocation] at h

/-- C2 amended: conversions targeting webp, png or gif are encoded with no
explicit quality setting (codec defaults); the fixed quality 85 is applied
exactly when the target is jpeg. -/
theorem C2_quality_policy (mode fk pil : String)
    (hres : supported_formats.lookup fk = some pil) :
    ((fk = "webp" ∨ fk = "png" ∨ fk = "gif") →
      (saveInvocation mode fk pil).quality = none) ∧
    (fk = "jpeg" → (saveInvocation mode fk pil).quality = some 85) := by
  constructor
  · rintro (rfl | rfl | rfl) <;>
      · obtain rfl := Option.some.inj hres
        rfl
  · rintro rfl
    obtain rfl := Option.some.inj hres
    rfl

/-- C2 witness: png gets no quality argument; jpeg gets quality 85. -/
theorem C2_witness :
    (saveInvocation "RGB" "png" "PNG").quality = none ∧
    (saveInvocation "RGB" "jpeg" "JPEG").quality = some 85 := by
  constructor
  · exact (C2_quality_policy "RGB" "png" "PNG" (by rfl)).1 (Or.inr (Or.inl rfl))
  · exact (C2_quality_policy "RGB" "jpeg" "JPEG" (by rfl)).2 rfl

/-- C3 counterexample: on `" a"` the code returns `"a.png"` (Python
`.strip()` removes LEADING whitespace too), while the claimed
trailing-whitespace-only algorithm yields `" a.png"`. -/
theorem C3_counterexample :
    sanitize_filename " a" "png" ≠ sanitizeTrailingOnly " a" "png" ∧
    sanitize_filename " a" "png" = "a.png" ∧
    sanitizeTrailingOnly " a" "png" = " a.png" := by
  refine ⟨?_, rfl, rfl⟩
  decide

/-- C3 amended: for every raw name and extension the sanitizer drops the
text after the last dot, removes every character that is not alphanumeric,
space, underscore or hyphen, trims whitespace from BOTH ends, substitutes
`"converted"` if empty, and appends `"." ++ ext`; it is pure and total. -/
theorem C3_sanitizer (name ext : String) :
    sanitize_filename name ext = sanitizeClaim name ext :=
  sanitize_filename_eq_sanitizeClaim name ext

/-- The mode passed to the encoder is untouched whenever the resolved key is
neither jpeg nor jpg. -/
lemma saveInvocation_mode_of_ne_jpeg (mode fk pil : String)
    (h1 : fk ≠ "jpeg") (h2 : fk ≠ "jpg") :
    (saveInvocation mode fk pil).mode = mode := by
  unfold saveInvocation
  have hj : decide (fk = "jpeg") = false := decide_eq_false h1
  have hg : decide (fk = "jpg") = false := decide_eq_false h2
  dsimp only
  rw [hj, hg]
  simp only [Bool.or_self, Bool.and_false, Bool.false_eq_true, if_false]
  split
  · rfl
  · split <;> rfl

/-- An RGBA/LA mode headed to jpeg is rewritten to RGB before encoding. -/
lemma saveInvocation_mode_jpeg_alpha (mode pil : String)
    (h : mode = "RGBA" ∨ mode = "LA") :
    (saveInvocation mode "jpeg" pil).mode = "RGB" := by
  rcases h with rfl | rfl <;>
    · unfold saveInvocation
      dsimp only
      rw [if_neg (by decide : ¬ ("jpeg" = "ico"))]
      split <;> rfl

/-- C7: an RGBA or LA image is converted to RGB before encoding exactly when
the target is jpeg; for every other supported target the mode is passed to
the encoder unchanged, even for alpha-bearing sources. -/
theorem C7_mode_coercion (mode fk pil : String) :
    ((mode = "RGBA" ∨ mode = "LA") → fk = "jpeg" →
      (saveInvocation mode fk pil).mode = "RGB") ∧
    (fk ∈ ["webp", "png", "ico", "gif"] →
      (saveInvocation mode fk pil).mode = mode) := by
  constructor
  · intro hm hf
    subst hf
    exact saveInvocation_mode_jpeg_alpha mode pil hm
  · intro h
    simp only [List.mem_cons, List.not_mem_nil, or_false] at h
    rcases h with rfl | rfl | rfl | rfl <;>
      exact saveInvocation_mode_of_ne_jpeg _ _ _ (by decide) (by decide)

/-- C7 witness: an RGBA source headed to jpeg is coerced to RGB; the same
RGBA source headed to webp keeps its mode. -/
theorem C7_witness :
    (saveInvocation "RGBA" "jpeg" "JPEG").mode = "RGB" ∧
    (saveInvocation "RGBA" "webp" "WEBP").mode = "RGBA" := by
  constructor
  · exact (C7_mode_coercion "RGBA" "jpeg" "JPEG").1 (Or.inl rfl) rfl
  · exact (C7_mode_coercion "RGBA" "webp" "WEBP").2 (by decide)

/-- C8: an ico conversion always passes the fixed four embedded resolutions
16, 32, 48, 64 to the encoder, independent of the source image (quantified
over every source mode and every pil format identifier). -/
theorem C8_ico_sizes (mode pil : String) :
    (saveInvocation mode "ico" pil).sizes =
      some [(16, 16), (32, 32), (48, 48), (64, 64)] := by
  unfold saveInvocation
  dsimp only
  rfl

/-- The default-name branch of lines 115-116 computes exactly the claim-C4
pipeline: upload filename (fallback `"converted"`), one extension stripped,
then the sanitizer. -/
lemma defaultFilename_eq_claimC4 (file_fn : Option String) (fk : String) :
    sanitize_filename (rsplitDot1 (pyOrStr file_fn "converted")) fk =
      claimC4Filename file_fn fk := by
  rcases file_fn with _ | s
  · unfold claimC4Filename pyOrStr
    dsimp only
    rw [sanitize_filename_eq_sanitizeClaim]
    congr 1
  · by_cases hs : s = ""
    · subst hs
      have h1 : sanitize_filename (rsplitDot1 (pyOrStr (some "") "converted")) fk
          = "converted" ++ "." ++ fk := rfl
      have h2 : claimC4Filename (some "") fk = "converted" ++ "." ++ fk := rfl
      rw [h1, h2]
    · unfold claimC4Filename pyOrStr
      dsimp only
      rw [if_neg hs, sanitize_filename_eq_sanitizeClaim]
      congr 1
      unfold rsplitDot1
      rw [stripExtSpec_eq_dropAfterLastDot, Option.getD_some]

/-- C4: with no (or blank) user-supplied output filename and a successful
pipeline, the response filename is derived from the upload filename by
stripping one extension (fallback `"converted"` when the upload name is
absent), cleaning as by the sanitizer, and appending the lowercased target
key (which is also the media-type suffix). -/
theorem C4_default_filename (file_fn : Option String) (tf : String)
    (out_fn : Option String) (tok : String) (th : ℚ) (env : Env)
    (kvs : List (String × Json)) (st : ℕ) (fk pil mode : String)
    (hst : 200 ≤ st ∧ st < 300)
    (hup : env.upstream = .resp st (some (.obj kvs)))
    (hsucc : ((lookupJson kvs "success").getD (.bool false)).truthy = true)
    (hscore : scoreViolation kvs th = none)
    (hblank : out_fn = none ∨ ∃ s, out_fn = some s ∧ pyStrip s = "")
    (hfk : resolveFormat tf = .ok (fk, pil))
    (hdec : env.decodeResult = .ok mode)
    (hsave : env.saveResult (saveInvocation mode fk pil) = .ok ()) :
    convert_image file_fn tf out_fn tok th env =
      .success ("image/" ++ fk) (claimC4Filename file_fn fk) ∧
    fk = pyLower tf := by
  refine ⟨?_, (resolveFormat_ok_shape tf fk pil hfk).1⟩
  rw [convert_image_after_success file_fn tf out_fn tok th env kvs st hst hup hsucc,
    hscore]
  dsimp only
  unfold conversionPhase
  rw [hfk]
  dsimp only
  rw [hdec]
  dsimp only
  rw [hsave]
  dsimp only
  rcases hblank with rfl | ⟨s, rfl, hb⟩
  · dsimp only
    rw [defaultFilename_eq_claimC4]
  · dsimp only
    rw [if_neg (fun hc => hc hb), defaultFilename_eq_claimC4]

/-- C4 witness: blank user name, upload `"art.jpeg"`, target `"GIF"` yields
`"art.gif"` (the §8 test vector). -/
theorem C4_witness :
    convert_image (some "art.jpeg") "GIF" none "tok" (3 / 10)
      ⟨.resp 200 (some (.obj [("success", .bool true)])), .ok "RGB", fun _ => .ok ()⟩ =
      .success "image/gif" "art.gif" := by
  have h := C4_default_filename (some "art.jpeg") "GIF" none "tok" (3 / 10)
    ⟨.resp 200 (some (.obj [("success", .bool true)])), .ok "RGB", fun _ => .ok ()⟩
    [("success", .bool true)] 200 "gif" "GIF" "RGB"
    (by decide) rfl rfl rfl (Or.inl rfl) rfl rfl rfl
  rw [h.1]
  rfl

/-- C5: with a 2xx success response, a numeric score strictly below the
threshold aborts with the 400 score-too-low error carrying that score; an
absent score, or one at/above the threshold, lets the request proceed to
the conversion phase, which never produces a verification failure.  The
configured default threshold is 0.3. -/
theorem C5_score_threshold (file_fn : Option String) (tf : String)
    (out_fn : Option String) (tok : String) (th : ℚ) (env : Env)
    (kvs : List (String × Json)) (st : ℕ)
    (hst : 200 ≤ st ∧ st < 300)
    (hup : env.upstream = .resp st (some (.obj kvs)))
    (hsucc : ((lookupJson kvs "success").getD (.bool false)).truthy = true) :
    (∀ q : ℚ, lookupJson kvs "score" = some (.num q) → q < th →
      convert_image file_fn tf out_fn tok th env = .error (.scoreTooLow q) ∧
      (ConvError.scoreTooLow q).status = 400) ∧
    (lookupJson kvs "score" = none →
      convert_image file_fn tf out_fn tok th env =
        conversionPhase file_fn tf out_fn env) ∧
    (∀ q : ℚ, lookupJson kvs "score" = some (.num q) → ¬ q < th →
      convert_image file_fn tf out_fn tok th env =
        conversionPhase file_fn tf out_fn env) ∧
    (∀ f o e, isVerificationError (conversionPhase f tf o e) = false) ∧
    defaultRecaptchaThreshold = 3 / 10 := by
  have hred := convert_image_after_success file_fn tf out_fn tok th env kvs st hst hup hsucc
  refine ⟨?_, ?_, ?_, fun f o e => conversionPhase_no_verifError f tf o e, rfl⟩
  · intro q hq hlt
    refine ⟨?_, rfl⟩
    have hsv : scoreViolation kvs th = some q := by
      unfold scoreViolation
      rw [hq]
      dsimp only [pyFloat?]
      rw [if_pos hlt]
    rw [hred, hsv]
  · intro h0
    have hsv : scoreViolation kvs th = none := by
      unfold scoreViolation
      rw [h0]
    rw [hred, hsv]
  · intro q hq hge
    have hsv : scoreViolation kvs th = none := by
      unfold scoreViolation
      rw [hq]
      dsimp only [pyFloat?]
      rw [if_neg hge]
    rw [hred, hsv]

/-- C5 witness: score 0.1 against threshold 0.3 yields the 400
score-too-low error carrying 0.1 (the §8 test vector); without a score the
request proceeds. -/
theorem C5_witness :
    convert_image none "png" none "tok" (3 / 10)
      ⟨.resp 200 (some (.obj [("success", .bool true), ("score", .num (1 / 10))])),
        .ok "RGB", fun _ => .ok ()⟩ =
      .error (.scoreTooLow (1 / 10)) ∧
    convert_image none "png" none "tok" (3 / 10)
      ⟨.resp 200 (some (.obj [("success", .bool true)])), .ok "RGB", fun _ => .ok ()⟩ =
      conversionPhase none "png" none
        ⟨.resp 200 (some (.obj [("success", .bool true)])), .ok "RGB", fun _ => .ok ()⟩ := by
  constructor
  · exact ((C5_score_threshold none "png" none "tok" (3 / 10)
      ⟨.resp 200 (some (.obj [("success", .bool true), ("score", .num (1 / 10))])),
        .ok "RGB", fun _ => .ok ()⟩
      [("success", .bool true), ("score", .num (1 / 10))] 200
      (by decide) rfl rfl).1 (1 / 10) rfl (by norm_num)).1
  · exact (C5_score_threshold none "png" none "tok" (3 / 10)
      ⟨.resp 200 (some (.obj [("success", .bool true)])), .ok "RGB", fun _ => .ok ()⟩
      [("success", .bool true)] 200 (by decide) rfl rfl).2.1 rfl

/-- C6: a transport failure or a non-2xx upstream status makes the request
fail with the 502 verification-unavailable error, and a parsed response
with a falsy `success` makes it fail with the 400 rejected error carrying
the reported error codes; in neither case does the conversion proceed to a
success response. -/
theorem C6_verification_gate (file_fn : Option String) (tf : String)
    (out_fn : Option String) (tok : String) (th : ℚ) (env : Env) :
    (env.upstream = .transportFailure →
      convert_image file_fn tf out_fn tok th env = .error .verificationUnavailable ∧
      ConvError.verificationUnavailable.status = 502 ∧
      ∀ mt fn, convert_image file_fn tf out_fn tok th env ≠ .success mt fn) ∧
    (∀ st body, env.upstream = .resp st body → ¬ (200 ≤ st ∧ st < 300) →
      convert_image file_fn tf out_fn tok th env = .error .verificationUnavailable ∧
      ConvError.verificationUnavailable.status = 502 ∧
      ∀ mt fn, convert_image file_fn tf out_fn tok th env ≠ .success mt fn) ∧
    (∀ st kvs, env.upstream = .resp st (some (.obj kvs)) → 200 ≤ st ∧ st < 300 →
      ((lookupJson kvs "success").getD (.bool false)).truthy = false →
      convert_image file_fn tf out_fn tok th env =
        .error (.verificationRejected ((lookupJson kvs "error-codes").getD (.arr []))) ∧
      (ConvError.verificationRejected ((lookupJson kvs "error-codes").getD (.arr []))).status = 400 ∧
      ∀ mt fn, convert_image file_fn tf out_fn tok th env ≠ .success mt fn) := by
  refine ⟨?_, ?_, ?_⟩
  · intro hup
    have he : convert_image file_fn tf out_fn tok th env =
        .error .verificationUnavailable := by
      unfold convert_image verify_recaptcha
      rw [hup]
    exact ⟨he, rfl, fun mt fn hc => HandlerOutcome.noConfusion (he ▸ hc)⟩
  · intro st body hup hst
    have he : convert_image file_fn tf out_fn tok th env =
        .error .verificationUnavailable := by
      unfold convert_image verify_recaptcha
      rw [hup]
      dsimp only
      rw [if_neg hst]
    exact ⟨he, rfl, fun mt fn hc => HandlerOutcome.noConfusion (he ▸ hc)⟩
  · intro st kvs hup hst hfail
    have he : convert_image file_fn tf out_fn tok th env =
        .error (.verificationRejected ((lookupJson kvs "error-codes").getD (.arr []))) := by
      unfold convert_image verify_recaptcha
      rw [hup]
      dsimp only
      rw [if_pos hst]
      dsimp only
      rw [if_neg (fun hc => Bool.false_ne_true (hfail ▸ hc))]
    exact ⟨he, rfl, fun mt fn hc => HandlerOutcome.noConfusion (he ▸ hc)⟩

/-- C6 witness: a transport failure and a 500 upstream both yield the 502
error; `success = false` with `error-codes` yields the 400 rejected error
carrying that code list (the §8 test vector). -/
theorem C6_witness :
    convert_image none "png" none "tok" (3 / 10)
      ⟨.transportFailure, .ok "RGB", fun _ => .ok ()⟩ =
      .error .verificationUnavailable ∧
    convert_image none "png" none "tok" (3 / 10)
      ⟨.resp 500 (some (.obj [])), .ok "RGB", fun _ => .ok ()⟩ =
      .error .verificationUnavailable ∧
    convert_image none "png" none "tok" (3 / 10)
      ⟨.resp 200 (some (.obj [("success", .bool false),
          ("error-codes", .arr [.str "invalid-input-response"])])),
        .ok "RGB", fun _ => .ok ()⟩ =
      .error (.verificationRejected (.arr [.str "invalid-input-response"])) := by
  refine ⟨?_, ?_, ?_⟩
  · exact ((C6_verification_gate none "png" none "tok" (3 / 10)
      ⟨.transportFailure, .ok "RGB", fun _ => .ok ()⟩).1 rfl).1
  · exact ((C6_verification_gate none "png" none "tok" (3 / 10)
      ⟨.resp 500 (some (.obj [])), .ok "RGB", fun _ => .ok ()⟩).2.1
      500 (some (.obj [])) rfl (by decide)).1
  · exact ((C6_verification_gate none "png" none "tok" (3 / 10)
      ⟨.resp 200 (some (.obj [("success", .bool false),
          ("error-codes", .arr [.str "invalid-input-response"])])),
        .ok "RGB", fun _ => .ok ()⟩).2.2 200
      [("success", .bool false), ("error-codes", .arr [.str "invalid-input-response"])]
      rfl (by decide) rfl).1

/-- C9 counterexample: a 2xx verification response whose body does not parse
as JSON makes the handler terminate with an UNCAUGHT `json.JSONDecodeError`
— not a well-formed mapped error response — because the catch-all `try`
covers only lines 92-125 and the verification call is guarded only against
`httpx.HTTPError`. -/
theorem C9_counterexample :
    convert_image none "png" none "tok" (3 / 10)
      ⟨.resp 200 none, .ok "RGB", fun _ => .ok ()⟩ = .escaped "JSONDecodeError" ∧
    (∀ e : ConvError, (HandlerOutcome.escaped "JSONDecodeError") ≠ .error e) ∧
    (∀ mt fn, (HandlerOutcome.escaped "JSONDecodeError") ≠ .success mt fn) := by
  exact ⟨rfl, fun e hc => HandlerOutcome.noConfusion hc,
    fun mt fn hc => HandlerOutcome.noConfusion hc⟩

/-- C9 amended: every exception raised inside the conversion block is caught
and mapped to the generic 500 carrying the exception text, and the
conversion phase never lets an exception escape; but an exception CAN escape
the handler from the verification section — exactly when the 2xx
verification body is unparseable or parses to a non-object. -/
theorem C9_error_boundary (file_fn : Option String) (tf : String)
    (out_fn : Option String) (tok : String) (th : ℚ) (env : Env) :
    (∀ n, conversionPhase file_fn tf out_fn env ≠ .escaped n) ∧
    (∀ fk pil m, resolveFormat tf = .ok (fk, pil) →
      env.decodeResult = .error m →
      conversionPhase file_fn tf out_fn env = .error (.internal m) ∧
      (ConvError.internal m).status = 500) ∧
    (∀ fk pil mode m, resolveFormat tf = .ok (fk, pil) →
      env.decodeResult = .ok mode →
      env.saveResult (saveInvocation mode fk pil) = .error m →
      conversionPhase file_fn tf out_fn env = .error (.internal m) ∧
      (ConvError.internal m).status = 500) ∧
    (∀ n, convert_image file_fn tf out_fn tok th env = .escaped n →
      verify_recaptcha tok env.upstream = .jsonErr ∨
      (∃ j, verify_recaptcha tok env.upstream = .ok j ∧ ∀ kvs, j ≠ .obj kvs)) := by
  refine ⟨conversionPhase_ne_escaped file_fn tf out_fn env, ?_, ?_, ?_⟩
  · intro fk pil m hfk hdec
    refine ⟨?_, rfl⟩
    unfold conversionPhase
    rw [hfk]
    dsimp only
    rw [hdec]
  · intro fk pil mode m hfk hdec hsave
    refine ⟨?_, rfl⟩
    unfold conversionPhase
    rw [hfk]
    dsimp only
    rw [hdec]
    dsimp only
    rw [hsave]
  · intro n hesc
    unfold convert_image at hesc
    rcases hv : verify_recaptcha tok env.upstream with _ | _ | j <;> rw [hv] at hesc
    · exact absurd hesc (fun hc => HandlerOutcome.noConfusion hc)
    · left
      rfl
    · rcases j with _ | b | q | s | l | kvs
      · exact Or.inr ⟨.null, rfl, fun kvs hc => Json.noConfusion hc⟩
      · exact Or.inr ⟨.bool b, rfl, fun kvs hc => Json.noConfusion hc⟩
      · exact Or.inr ⟨.num q, rfl, fun kvs hc => Json.noConfusion hc⟩
      · exact Or.inr ⟨.str s, rfl, fun kvs hc => Json.noConfusion hc⟩
      · exact Or.inr ⟨.arr l, rfl, fun kvs hc => Json.noConfusion hc⟩
      · exfalso
        dsimp only at hesc
        by_cases hsu : ((lookupJson kvs "success").getD (.bool false)).truthy = true
        · rw [if_pos hsu] at hesc
          rcases hsv : scoreViolation kvs th with _ | sc <;> rw [hsv] at hesc <;>
            dsimp only at hesc
          · exact conversionPhase_ne_escaped file_fn tf out_fn env n hesc
          · exact HandlerOutcome.noConfusion hesc
        · rw [if_neg hsu] at hesc
          exact HandlerOutcome.noConfusion hesc

/-- C9 witness: a decode failure inside the conversion block becomes the
500 internal error, and the conversion phase never escapes. -/
theorem C9_witness :
    conversionPhase none "png" none ⟨.transportFailure, .error "boom", fun _ => .ok ()⟩ =
      .error (.internal "boom") ∧
    (∀ n, conversionPhase none "png" none
      ⟨.transportFailure, .error "boom", fun _ => .ok ()⟩ ≠ .escaped n) := by
  have h := C9_error_boundary none "png" none "tok" (3 / 10)
    ⟨.transportFailure, .error "boom", fun _ => .ok ()⟩
  exact ⟨(h.2.1 "png" "PNG" "boom" rfl rfl).1, h.1⟩

/-- C10: a present `score` value that is not `null` and on which `float`
raises is treated as if the score were absent: no error, and the request
proceeds to the conversion phase on the success flag alone. -/
theorem C10_malformed_score (file_fn : Option String) (tf : String)
    (out_fn : Option String) (tok : String) (th : ℚ) (env : Env)
    (kvs : List (String × Json)) (st : ℕ) (v : Json)
    (hst : 200 ≤ st ∧ st < 300)
    (hup : env.upstream = .resp st (some (.obj kvs)))
    (hsucc : ((lookupJson kvs "success").getD (.bool false)).truthy = true)
    (hv : lookupJson kvs "score" = some v)
    (hnn : v ≠ .null)
    (hnum : pyFloat? v = none) :
    convert_image file_fn tf out_fn tok th env =
      conversionPhase file_fn tf out_fn env ∧
    (∀ q, convert_image file_fn tf out_fn tok th env ≠ .error (.scoreTooLow q)) := by
  have hsv : scoreViolation kvs th = none := by
    unfold scoreViolation
    rw [hv]
    rcases v with _ | b | q | s | l | o
    · exact absurd rfl hnn
    all_goals
      dsimp only
      rw [hnum]
  have heq := convert_image_after_success file_fn tf out_fn tok th env kvs st hst hup hsucc
  rw [hsv] at heq
  dsimp only at heq
  refine ⟨heq, fun q hc => ?_⟩
  rw [heq] at hc
  have hnv := conversionPhase_no_verifError file_fn tf out_fn env
  rw [hc] at hnv
  simp [isVerificationError] at hnv

/-- C10 witness: `"score": "abc"` (unconvertible) is ignored and the
request proceeds. -/
theorem C10_witness :
    convert_image none "png" none "tok" (3 / 10)
      ⟨.resp 200 (some (.obj [("success", .bool true), ("score", .str "abc")])),
        .ok "RGB", fun _ => .ok ()⟩ =
      conversionPhase none "png" none
        ⟨.resp 200 (some (.obj [("success", .bool true), ("score", .str "abc")])),
          .ok "RGB", fun _ => .ok ()⟩ := by
  exact (C10_malformed_score none "png" none "tok" (3 / 10)
    ⟨.resp 200 (some (.obj [("success", .bool true), ("score", .str "abc")])),
      .ok "RGB", fun _ => .ok ()⟩
    [("success", .bool true), ("score", .str "abc")] 200 (.str "abc")
    (by decide) rfl rfl rfl (fun hc => Json.noConfusion hc) rfl).1

end ImageConv
